import Mathlib

/-!
Shallow embedding of `Graphics/GraphicsEngineD3DBase/src/DXGITypeConversions.cpp`
from DiligentCore: the engine↔DXGI texture-format translation tables, the
binding-intent format corrector `CorrectDXGIFormat`, and the bidirectional
color-space heuristic mappers.  Machine enumerations are embedded as `Nat`
values; diagnostic macros (`VERIFY`, `UNEXPECTED`) are embedded as separate
Boolean-valued functions that report whether the diagnostic fires.
-/

namespace Diligent

/-! ### DXGI_FORMAT enumeration.

These numeric values are the standard Windows SDK `dxgiformat.h` values; the
source pins them down with `static_assert(DXGI_FORMAT_B4G4R4A4_UNORM == 115)`.
-/

def DXGI_FORMAT_UNKNOWN : Nat := 0

def DXGI_FORMAT_R32G32B32A32_TYPELESS : Nat := 1

def DXGI_FORMAT_R32G32B32A32_FLOAT : Nat := 2

def DXGI_FORMAT_R32G32B32A32_UINT : Nat := 3

def DXGI_FORMAT_R32G32B32A32_SINT : Nat := 4

def DXGI_FORMAT_R32G32B32_TYPELESS : Nat := 5

def DXGI_FORMAT_R32G32B32_FLOAT : Nat := 6

def DXGI_FORMAT_R32G32B32_UINT : Nat := 7

def DXGI_FORMAT_R32G32B32_SINT : Nat := 8

def DXGI_FORMAT_R16G16B16A16_TYPELESS : Nat := 9

def DXGI_FORMAT_R16G16B16A16_FLOAT : Nat := 10

def DXGI_FORMAT_R16G16B16A16_UNORM : Nat := 11

def DXGI_FORMAT_R16G16B16A16_UINT : Nat := 12

def DXGI_FORMAT_R16G16B16A16_SNORM : Nat := 13

def DXGI_FORMAT_R16G16B16A16_SINT : Nat := 14

def DXGI_FORMAT_R32G32_TYPELESS : Nat := 15

def DXGI_FORMAT_R32G32_FLOAT : Nat := 16

def DXGI_FORMAT_R32G32_UINT : Nat := 17

def DXGI_FORMAT_R32G32_SINT : Nat := 18

def DXGI_FORMAT_R32G8X24_TYPELESS : Nat := 19

def DXGI_FORMAT_D32_FLOAT_S8X24_UINT : Nat := 20

def DXGI_FORMAT_R32_FLOAT_X8X24_TYPELESS : Nat := 21

def DXGI_FORMAT_X32_TYPELESS_G8X24_UINT : Nat := 22

def DXGI_FORMAT_R10G10B10A2_TYPELESS : Nat := 23

def DXGI_FORMAT_R10G10B10A2_UNORM : Nat := 24

def DXGI_FORMAT_R10G10B10A2_UINT : Nat := 25

def DXGI_FORMAT_R11G11B10_FLOAT : Nat := 26

def DXGI_FORMAT_R8G8B8A8_TYPELESS : Nat := 27

def DXGI_FORMAT_R8G8B8A8_UNORM : Nat := 28

def DXGI_FORMAT_R8G8B8A8_UNORM_SRGB : Nat := 29

def DXGI_FORMAT_R8G8B8A8_UINT : Nat := 30

def DXGI_FORMAT_R8G8B8A8_SNORM : Nat := 31

def DXGI_FORMAT_R8G8B8A8_SINT : Nat := 32

def DXGI_FORMAT_R16G16_TYPELESS : Nat := 33

def DXGI_FORMAT_R16G16_FLOAT : Nat := 34

def DXGI_FORMAT_R16G16_UNORM : Nat := 35

def DXGI_FORMAT_R16G16_UINT : Nat := 36

def DXGI_FORMAT_R16G16_SNORM : Nat := 37

def DXGI_FORMAT_R16G16_SINT : Nat := 38

def DXGI_FORMAT_R32_TYPELESS : Nat := 39

def DXGI_FORMAT_D32_FLOAT : Nat := 40

def DXGI_FORMAT_R32_FLOAT : Nat := 41

def DXGI_FORMAT_R32_UINT : Nat := 42

def DXGI_FORMAT_R32_SINT : Nat := 43

def DXGI_FORMAT_R24G8_TYPELESS : Nat := 44

def DXGI_FORMAT_D24_UNORM_S8_UINT : Nat := 45

def DXGI_FORMAT_R24_UNORM_X8_TYPELESS : Nat := 46

def DXGI_FORMAT_X24_TYPELESS_G8_UINT : Nat := 47

def DXGI_FORMAT_R8G8_TYPELESS : Nat := 48

def DXGI_FORMAT_R8G8_UNORM : Nat := 49

def DXGI_FORMAT_R8G8_UINT : Nat := 50

def DXGI_FORMAT_R8G8_SNORM : Nat := 51

def DXGI_FORMAT_R8G8_SINT : Nat := 52

def DXGI_FORMAT_R16_TYPELESS : Nat := 53

def DXGI_FORMAT_R16_FLOAT : Nat := 54

def DXGI_FORMAT_D16_UNORM : Nat := 55

def DXGI_FORMAT_R16_UNORM : Nat := 56

def DXGI_FORMAT_R16_UINT : Nat := 57

def DXGI_FORMAT_R16_SNORM : Nat := 58

def DXGI_FORMAT_R16_SINT : Nat := 59

def DXGI_FORMAT_R8_TYPELESS : Nat := 60

def DXGI_FORMAT_R8_UNORM : Nat := 61

def DXGI_FORMAT_R8_UINT : Nat := 62

def DXGI_FORMAT_R8_SNORM : Nat := 63

def DXGI_FORMAT_R8_SINT : Nat := 64

def DXGI_FORMAT_A8_UNORM : Nat := 65

def DXGI_FORMAT_R1_UNORM : Nat := 66

def DXGI_FORMAT_R9G9B9E5_SHAREDEXP : Nat := 67

def DXGI_FORMAT_R8G8_B8G8_UNORM : Nat := 68

def DXGI_FORMAT_G8R8_G8B8_UNORM : Nat := 69

def DXGI_FORMAT_BC1_TYPELESS : Nat := 70

def DXGI_FORMAT_BC1_UNORM : Nat := 71

def DXGI_FORMAT_BC1_UNORM_SRGB : Nat := 72

def DXGI_FORMAT_BC2_TYPELESS : Nat := 73

def DXGI_FORMAT_BC2_UNORM : Nat := 74

def DXGI_FORMAT_BC2_UNORM_SRGB : Nat := 75

def DXGI_FORMAT_BC3_TYPELESS : Nat := 76

def DXGI_FORMAT_BC3_UNORM : Nat := 77

def DXGI_FORMAT_BC3_UNORM_SRGB : Nat := 78

def DXGI_FORMAT_BC4_TYPELESS : Nat := 79

def DXGI_FORMAT_BC4_UNORM : Nat := 80

def DXGI_FORMAT_BC4_SNORM : Nat := 81

def DXGI_FORMAT_BC5_TYPELESS : Nat := 82

def DXGI_FORMAT_BC5_UNORM : Nat := 83

def DXGI_FORMAT_BC5_SNORM : Nat := 84

def DXGI_FORMAT_B5G6R5_UNORM : Nat := 85

def DXGI_FORMAT_B5G5R5A1_UNORM : Nat := 86

def DXGI_FORMAT_B8G8R8A8_UNORM : Nat := 87

def DXGI_FORMAT_B8G8R8X8_UNORM : Nat := 88

def DXGI_FORMAT_R10G10B10_XR_BIAS_A2_UNORM : Nat := 89

def DXGI_FORMAT_B8G8R8A8_TYPELESS : Nat := 90

def DXGI_FORMAT_B8G8R8A8_UNORM_SRGB : Nat := 91

def DXGI_FORMAT_B8G8R8X8_TYPELESS : Nat := 92

def DXGI_FORMAT_B8G8R8X8_UNORM_SRGB : Nat := 93

def DXGI_FORMAT_BC6H_TYPELESS : Nat := 94

def DXGI_FORMAT_BC6H_UF16 : Nat := 95

def DXGI_FORMAT_BC6H_SF16 : Nat := 96

def DXGI_FORMAT_BC7_TYPELESS : Nat := 97

def DXGI_FORMAT_BC7_UNORM : Nat := 98

def DXGI_FORMAT_BC7_UNORM_SRGB : Nat := 99

def DXGI_FORMAT_B4G4R4A4_UNORM : Nat := 115

/-! ### TEXTURE_FORMAT enumeration.

Modelled from the spec: the engine texture-format enumeration is declared in
a header that is not among the provided sources.  Per the spec it is an
opaque contiguous enumeration with `Unknown` as the zero value, and the
forward table in the source file is "a static, ordered, exhaustive table
literal" listing the formats in enumeration order; each engine format
mirrors the numeric value of its DXGI counterpart.  The source pins the
layout with `static_assert(TEX_FORMAT_NUM_FORMATS == 106)`, and its
`VERIFY` on the forward lookup treats every format above
`TEX_FORMAT_BC7_UNORM_SRGB` as legitimately unmapped, leaving six trailing
compressed (ETC2) formats, values 100..105, with no DXGI equivalent.
-/

def TEX_FORMAT_UNKNOWN : Nat := 0

def TEX_FORMAT_RGBA32_TYPELESS : Nat := 1

def TEX_FORMAT_RGBA32_FLOAT : Nat := 2

def TEX_FORMAT_RGBA32_UINT : Nat := 3

def TEX_FORMAT_RGBA32_SINT : Nat := 4

def TEX_FORMAT_RGB32_TYPELESS : Nat := 5

def TEX_FORMAT_RGB32_FLOAT : Nat := 6

def TEX_FORMAT_RGB32_UINT : Nat := 7

def TEX_FORMAT_RGB32_SINT : Nat := 8

def TEX_FORMAT_RGBA16_TYPELESS : Nat := 9

def TEX_FORMAT_RGBA16_FLOAT : Nat := 10

def TEX_FORMAT_RGBA16_UNORM : Nat := 11

def TEX_FORMAT_RGBA16_UINT : Nat := 12

def TEX_FORMAT_RGBA16_SNORM : Nat := 13

def TEX_FORMAT_RGBA16_SINT : Nat := 14

def TEX_FORMAT_RG32_TYPELESS : Nat := 15

def TEX_FORMAT_RG32_FLOAT : Nat := 16

def TEX_FORMAT_RG32_UINT : Nat := 17

def TEX_FORMAT_RG32_SINT : Nat := 18

def TEX_FORMAT_R32G8X24_TYPELESS : Nat := 19

def TEX_FORMAT_D32_FLOAT_S8X24_UINT : Nat := 20

def TEX_FORMAT_R32_FLOAT_X8X24_TYPELESS : Nat := 21

def TEX_FORMAT_X32_TYPELESS_G8X24_UINT : Nat := 22

def TEX_FORMAT_RGB10A2_TYPELESS : Nat := 23

def TEX_FORMAT_RGB10A2_UNORM : Nat := 24

def TEX_FORMAT_RGB10A2_UINT : Nat := 25

def TEX_FORMAT_R11G11B10_FLOAT : Nat := 26

def TEX_FORMAT_RGBA8_TYPELESS : Nat := 27

def TEX_FORMAT_RGBA8_UNORM : Nat := 28

def TEX_FORMAT_RGBA8_UNORM_SRGB : Nat := 29

def TEX_FORMAT_RGBA8_UINT : Nat := 30

def TEX_FORMAT_RGBA8_SNORM : Nat := 31

def TEX_FORMAT_RGBA8_SINT : Nat := 32

def TEX_FORMAT_RG16_TYPELESS : Nat := 33

def TEX_FORMAT_RG16_FLOAT : Nat := 34

def TEX_FORMAT_RG16_UNORM : Nat := 35

def TEX_FORMAT_RG16_UINT : Nat := 36

def TEX_FORMAT_RG16_SNORM : Nat := 37

def TEX_FORMAT_RG16_SINT : Nat := 38

def TEX_FORMAT_R32_TYPELESS : Nat := 39

def TEX_FORMAT_D32_FLOAT : Nat := 40

def TEX_FORMAT_R32_FLOAT : Nat := 41

def TEX_FORMAT_R32_UINT : Nat := 42

def TEX_FORMAT_R32_SINT : Nat := 43

def TEX_FORMAT_R24G8_TYPELESS : Nat := 44

def TEX_FORMAT_D24_UNORM_S8_UINT : Nat := 45

def TEX_FORMAT_R24_UNORM_X8_TYPELESS : Nat := 46

def TEX_FORMAT_X24_TYPELESS_G8_UINT : Nat := 47

def TEX_FORMAT_RG8_TYPELESS : Nat := 48

def TEX_FORMAT_RG8_UNORM : Nat := 49

def TEX_FORMAT_RG8_UINT : Nat := 50

def TEX_FORMAT_RG8_SNORM : Nat := 51

def TEX_FORMAT_RG8_SINT : Nat := 52

def TEX_FORMAT_R16_TYPELESS : Nat := 53

def TEX_FORMAT_R16_FLOAT : Nat := 54

def TEX_FORMAT_D16_UNORM : Nat := 55

def TEX_FORMAT_R16_UNORM : Nat := 56

def TEX_FORMAT_R16_UINT : Nat := 57

def TEX_FORMAT_R16_SNORM : Nat := 58

def TEX_FORMAT_R16_SINT : Nat := 59

def TEX_FORMAT_R8_TYPELESS : Nat := 60

def TEX_FORMAT_R8_UNORM : Nat := 61

def TEX_FORMAT_R8_UINT : Nat := 62

def TEX_FORMAT_R8_SNORM : Nat := 63

def TEX_FORMAT_R8_SINT : Nat := 64

def TEX_FORMAT_A8_UNORM : Nat := 65

def TEX_FORMAT_R1_UNORM : Nat := 66

def TEX_FORMAT_RGB9E5_SHAREDEXP : Nat := 67

def TEX_FORMAT_RG8_B8G8_UNORM : Nat := 68

def TEX_FORMAT_G8R8_G8B8_UNORM : Nat := 69

def TEX_FORMAT_BC1_TYPELESS : Nat := 70

def TEX_FORMAT_BC1_UNORM : Nat := 71

def TEX_FORMAT_BC1_UNORM_SRGB : Nat := 72

def TEX_FORMAT_BC2_TYPELESS : Nat := 73

def TEX_FORMAT_BC2_UNORM : Nat := 74

def TEX_FORMAT_BC2_UNORM_SRGB : Nat := 75

def TEX_FORMAT_BC3_TYPELESS : Nat := 76

def TEX_FORMAT_BC3_UNORM : Nat := 77

def TEX_FORMAT_BC3_UNORM_SRGB : Nat := 78

def TEX_FORMAT_BC4_TYPELESS : Nat := 79

def TEX_FORMAT_BC4_UNORM : Nat := 80

def TEX_FORMAT_BC4_SNORM : Nat := 81

def TEX_FORMAT_BC5_TYPELESS : Nat := 82

def TEX_FORMAT_BC5_UNORM : Nat := 83

def TEX_FORMAT_BC5_SNORM : Nat := 84

def TEX_FORMAT_B5G6R5_UNORM : Nat := 85

def TEX_FORMAT_B5G5R5A1_UNORM : Nat := 86

def TEX_FORMAT_BGRA8_UNORM : Nat := 87

def TEX_FORMAT_BGRX8_UNORM : Nat := 88

def TEX_FORMAT_R10G10B10_XR_BIAS_A2_UNORM : Nat := 89

def TEX_FORMAT_BGRA8_TYPELESS : Nat := 90

def TEX_FORMAT_BGRA8_UNORM_SRGB : Nat := 91

def TEX_FORMAT_BGRX8_TYPELESS : Nat := 92

def TEX_FORMAT_BGRX8_UNORM_SRGB : Nat := 93

def TEX_FORMAT_BC6H_TYPELESS : Nat := 94

def TEX_FORMAT_BC6H_UF16 : Nat := 95

def TEX_FORMAT_BC6H_SF16 : Nat := 96

def TEX_FORMAT_BC7_TYPELESS : Nat := 97

def TEX_FORMAT_BC7_UNORM : Nat := 98

def TEX_FORMAT_BC7_UNORM_SRGB : Nat := 99

def TEX_FORMAT_ETC2_RGB8_UNORM : Nat := 100

def TEX_FORMAT_ETC2_RGB8_UNORM_SRGB : Nat := 101

def TEX_FORMAT_ETC2_RGB8A1_UNORM : Nat := 102

def TEX_FORMAT_ETC2_RGB8A1_UNORM_SRGB : Nat := 103

def TEX_FORMAT_ETC2_RGBA8_UNORM : Nat := 104

def TEX_FORMAT_ETC2_RGBA8_UNORM_SRGB : Nat := 105

def TEX_FORMAT_NUM_FORMATS : Nat := 106

/-! ### BIND_FLAGS.

Modelled from the spec: the binding-intent flag enumeration is declared in a
header that is not among the provided sources; the spec describes it as "a
set of flags" (depth-stencil, shader-resource, unordered-access, or a
combination).  The values below are the engine's distinct single-bit flag
values; the conversion code only tests the depth-stencil bit and exact
equality with the three flags used here.
-/

def BIND_SHADER_RESOURCE : Nat := 8

def BIND_DEPTH_STENCIL : Nat := 64

def BIND_UNORDERED_ACCESS : Nat := 128

/-! ### Forward table: engine texture format to DXGI format. -/

/-- The assignments performed by the one-time initialization block inside
`TexFormatToDXGI_Format`, in source order: `FmtToDXGIFmtMap[first] = second`. -/
def FmtToDXGIFmtMapEntries : List (Nat × Nat) :=
  [(TEX_FORMAT_UNKNOWN, DXGI_FORMAT_UNKNOWN),
   (TEX_FORMAT_RGBA32_TYPELESS, DXGI_FORMAT_R32G32B32A32_TYPELESS),
   (TEX_FORMAT_RGBA32_FLOAT, DXGI_FORMAT_R32G32B32A32_FLOAT),
   (TEX_FORMAT_RGBA32_UINT, DXGI_FORMAT_R32G32B32A32_UINT),
   (TEX_FORMAT_RGBA32_SINT, DXGI_FORMAT_R32G32B32A32_SINT),
   (TEX_FORMAT_RGB32_TYPELESS, DXGI_FORMAT_R32G32B32_TYPELESS),
   (TEX_FORMAT_RGB32_FLOAT, DXGI_FORMAT_R32G32B32_FLOAT),
   (TEX_FORMAT_RGB32_UINT, DXGI_FORMAT_R32G32B32_UINT),
   (TEX_FORMAT_RGB32_SINT, DXGI_FORMAT_R32G32B32_SINT),
   (TEX_FORMAT_RGBA16_TYPELESS, DXGI_FORMAT_R16G16B16A16_TYPELESS),
   (TEX_FORMAT_RGBA16_FLOAT, DXGI_FORMAT_R16G16B16A16_FLOAT),
   (TEX_FORMAT_RGBA16_UNORM, DXGI_FORMAT_R16G16B16A16_UNORM),
   (TEX_FORMAT_RGBA16_UINT, DXGI_FORMAT_R16G16B16A16_UINT),
   (TEX_FORMAT_RGBA16_SNORM, DXGI_FORMAT_R16G16B16A16_SNORM),
   (TEX_FORMAT_RGBA16_SINT, DXGI_FORMAT_R16G16B16A16_SINT),
   (TEX_FORMAT_RG32_TYPELESS, DXGI_FORMAT_R32G32_TYPELESS),
   (TEX_FORMAT_RG32_FLOAT, DXGI_FORMAT_R32G32_FLOAT),
   (TEX_FORMAT_RG32_UINT, DXGI_FORMAT_R32G32_UINT),
   (TEX_FORMAT_RG32_SINT, DXGI_FORMAT_R32G32_SINT),
   (TEX_FORMAT_R32G8X24_TYPELESS, DXGI_FORMAT_R32G8X24_TYPELESS),
   (TEX_FORMAT_D32_FLOAT_S8X24_UINT, DXGI_FORMAT_D32_FLOAT_S8X24_UINT),
   (TEX_FORMAT_R32_FLOAT_X8X24_TYPELESS, DXGI_FORMAT_R32_FLOAT_X8X24_TYPELESS),
   (TEX_FORMAT_X32_TYPELESS_G8X24_UINT, DXGI_FORMAT_X32_TYPELESS_G8X24_UINT),
   (TEX_FORMAT_RGB10A2_TYPELESS, DXGI_FORMAT_R10G10B10A2_TYPELESS),
   (TEX_FORMAT_RGB10A2_UNORM, DXGI_FORMAT_R10G10B10A2_UNORM),
   (TEX_FORMAT_RGB10A2_UINT, DXGI_FORMAT_R10G10B10A2_UINT),
   (TEX_FORMAT_R11G11B10_FLOAT, DXGI_FORMAT_R11G11B10_FLOAT),
   (TEX_FORMAT_RGBA8_TYPELESS, DXGI_FORMAT_R8G8B8A8_TYPELESS),
   (TEX_FORMAT_RGBA8_UNORM, DXGI_FORMAT_R8G8B8A8_UNORM),
   (TEX_FORMAT_RGBA8_UNORM_SRGB, DXGI_FORMAT_R8G8B8A8_UNORM_SRGB),
   (TEX_FORMAT_RGBA8_UINT, DXGI_FORMAT_R8G8B8A8_UINT),
   (TEX_FORMAT_RGBA8_SNORM, DXGI_FORMAT_R8G8B8A8_SNORM),
   (TEX_FORMAT_RGBA8_SINT, DXGI_FORMAT_R8G8B8A8_SINT),
   (TEX_FORMAT_RG16_TYPELESS, DXGI_FORMAT_R16G16_TYPELESS),
   (TEX_FORMAT_RG16_FLOAT, DXGI_FORMAT_R16G16_FLOAT),
   (TEX_FORMAT_RG16_UNORM, DXGI_FORMAT_R16G16_UNORM),
   (TEX_FORMAT_RG16_UINT, DXGI_FORMAT_R16G16_UINT),
   (TEX_FORMAT_RG16_SNORM, DXGI_FORMAT_R16G16_SNORM),
   (TEX_FORMAT_RG16_SINT, DXGI_FORMAT_R16G16_SINT),
   (TEX_FORMAT_R32_TYPELESS, DXGI_FORMAT_R32_TYPELESS),
   (TEX_FORMAT_D32_FLOAT, DXGI_FORMAT_D32_FLOAT),
   (TEX_FORMAT_R32_FLOAT, DXGI_FORMAT_R32_FLOAT),
   (TEX_FORMAT_R32_UINT, DXGI_FORMAT_R32_UINT),
   (TEX_FORMAT_R32_SINT, DXGI_FORMAT_R32_SINT),
   (TEX_FORMAT_R24G8_TYPELESS, DXGI_FORMAT_R24G8_TYPELESS),
   (TEX_FORMAT_D24_UNORM_S8_UINT, DXGI_FORMAT_D24_UNORM_S8_UINT),
   (TEX_FORMAT_R24_UNORM_X8_TYPELESS, DXGI_FORMAT_R24_UNORM_X8_TYPELESS),
   (TEX_FORMAT_X24_TYPELESS_G8_UINT, DXGI_FORMAT_X24_TYPELESS_G8_UINT),
   (TEX_FORMAT_RG8_TYPELESS, DXGI_FORMAT_R8G8_TYPELESS),
   (TEX_FORMAT_RG8_UNORM, DXGI_FORMAT_R8G8_UNORM),
   (TEX_FORMAT_RG8_UINT, DXGI_FORMAT_R8G8_UINT),
   (TEX_FORMAT_RG8_SNORM, DXGI_FORMAT_R8G8_SNORM),
   (TEX_FORMAT_RG8_SINT, DXGI_FORMAT_R8G8_SINT),
   (TEX_FORMAT_R16_TYPELESS, DXGI_FORMAT_R16_TYPELESS),
   (TEX_FORMAT_R16_FLOAT, DXGI_FORMAT_R16_FLOAT),
   (TEX_FORMAT_D16_UNORM, DXGI_FORMAT_D16_UNORM),
   (TEX_FORMAT_R16_UNORM, DXGI_FORMAT_R16_UNORM),
   (TEX_FORMAT_R16_UINT, DXGI_FORMAT_R16_UINT),
   (TEX_FORMAT_R16_SNORM, DXGI_FORMAT_R16_SNORM),
   (TEX_FORMAT_R16_SINT, DXGI_FORMAT_R16_SINT),
   (TEX_FORMAT_R8_TYPELESS, DXGI_FORMAT_R8_TYPELESS),
   (TEX_FORMAT_R8_UNORM, DXGI_FORMAT_R8_UNORM),
   (TEX_FORMAT_R8_UINT, DXGI_FORMAT_R8_UINT),
   (TEX_FORMAT_R8_SNORM, DXGI_FORMAT_R8_SNORM),
   (TEX_FORMAT_R8_SINT, DXGI_FORMAT_R8_SINT),
   (TEX_FORMAT_A8_UNORM, DXGI_FORMAT_A8_UNORM),
   (TEX_FORMAT_R1_UNORM, DXGI_FORMAT_R1_UNORM),
   (TEX_FORMAT_RGB9E5_SHAREDEXP, DXGI_FORMAT_R9G9B9E5_SHAREDEXP),
   (TEX_FORMAT_RG8_B8G8_UNORM, DXGI_FORMAT_R8G8_B8G8_UNORM),
   (TEX_FORMAT_G8R8_G8B8_UNORM, DXGI_FORMAT_G8R8_G8B8_UNORM),
   (TEX_FORMAT_BC1_TYPELESS, DXGI_FORMAT_BC1_TYPELESS),
   (TEX_FORMAT_BC1_UNORM, DXGI_FORMAT_BC1_UNORM),
   (TEX_FORMAT_BC1_UNORM_SRGB, DXGI_FORMAT_BC1_UNORM_SRGB),
   (TEX_FORMAT_BC2_TYPELESS, DXGI_FORMAT_BC2_TYPELESS),
   (TEX_FORMAT_BC2_UNORM, DXGI_FORMAT_BC2_UNORM),
   (TEX_FORMAT_BC2_UNORM_SRGB, DXGI_FORMAT_BC2_UNORM_SRGB),
   (TEX_FORMAT_BC3_TYPELESS, DXGI_FORMAT_BC3_TYPELESS),
   (TEX_FORMAT_BC3_UNORM, DXGI_FORMAT_BC3_UNORM),
   (TEX_FORMAT_BC3_UNORM_SRGB, DXGI_FORMAT_BC3_UNORM_SRGB),
   (TEX_FORMAT_BC4_TYPELESS, DXGI_FORMAT_BC4_TYPELESS),
   (TEX_FORMAT_BC4_UNORM, DXGI_FORMAT_BC4_UNORM),
   (TEX_FORMAT_BC4_SNORM, DXGI_FORMAT_BC4_SNORM),
   (TEX_FORMAT_BC5_TYPELESS, DXGI_FORMAT_BC5_TYPELESS),
   (TEX_FORMAT_BC5_UNORM, DXGI_FORMAT_BC5_UNORM),
   (TEX_FORMAT_BC5_SNORM, DXGI_FORMAT_BC5_SNORM),
   (TEX_FORMAT_B5G6R5_UNORM, DXGI_FORMAT_B5G6R5_UNORM),
   (TEX_FORMAT_B5G5R5A1_UNORM, DXGI_FORMAT_B5G5R5A1_UNORM),
   (TEX_FORMAT_BGRA8_UNORM, DXGI_FORMAT_B8G8R8A8_UNORM),
   (TEX_FORMAT_BGRX8_UNORM, DXGI_FORMAT_B8G8R8X8_UNORM),
   (TEX_FORMAT_R10G10B10_XR_BIAS_A2_UNORM, DXGI_FORMAT_R10G10B10_XR_BIAS_A2_UNORM),
   (TEX_FORMAT_BGRA8_TYPELESS, DXGI_FORMAT_B8G8R8A8_TYPELESS),
   (TEX_FORMAT_BGRA8_UNORM_SRGB, DXGI_FORMAT_B8G8R8A8_UNORM_SRGB),
   (TEX_FORMAT_BGRX8_TYPELESS, DXGI_FORMAT_B8G8R8X8_TYPELESS),
   (TEX_FORMAT_BGRX8_UNORM_SRGB, DXGI_FORMAT_B8G8R8X8_UNORM_SRGB),
   (TEX_FORMAT_BC6H_TYPELESS, DXGI_FORMAT_BC6H_TYPELESS),
   (TEX_FORMAT_BC6H_UF16, DXGI_FORMAT_BC6H_UF16),
   (TEX_FORMAT_BC6H_SF16, DXGI_FORMAT_BC6H_SF16),
   (TEX_FORMAT_BC7_TYPELESS, DXGI_FORMAT_BC7_TYPELESS),
   (TEX_FORMAT_BC7_UNORM, DXGI_FORMAT_BC7_UNORM),
   (TEX_FORMAT_BC7_UNORM_SRGB, DXGI_FORMAT_BC7_UNORM_SRGB)]

/-- The fully initialized forward table `FmtToDXGIFmtMap`: an array of
`TEX_FORMAT_NUM_FORMATS` slots, all initialized to `DXGI_FORMAT_UNKNOWN`
(the C declaration `= {DXGI_FORMAT_UNKNOWN}`), then written by the listed
assignments in source order. -/
def FmtToDXGIFmtMap : List Nat :=
  FmtToDXGIFmtMapEntries.foldl (fun tbl e => tbl.set e.1 e.2)
    (List.replicate TEX_FORMAT_NUM_FORMATS DXGI_FORMAT_UNKNOWN)

/-! ### CorrectDXGIFormat.

The source applies three sequential `if`/`switch` passes that rewrite the
format value in place; each pass is embedded as one rebinding below, with
the `switch` statements rendered as equality chains over the case labels.
-/

/-- Embedding of `CorrectDXGIFormat(DXGI_FORMAT DXGIFormat, Uint32 BindFlags)`. -/
def CorrectDXGIFormat (DXGIFormat BindFlags : Nat) : Nat :=
  let fmt1 :=
    if BindFlags &&& BIND_DEPTH_STENCIL ≠ 0 ∧ BindFlags ≠ BIND_DEPTH_STENCIL then
      if DXGIFormat = DXGI_FORMAT_R32_TYPELESS ∨
         DXGIFormat = DXGI_FORMAT_R32_FLOAT ∨
         DXGIFormat = DXGI_FORMAT_D32_FLOAT then
        DXGI_FORMAT_R32_TYPELESS
      else if DXGIFormat = DXGI_FORMAT_R24G8_TYPELESS ∨
              DXGIFormat = DXGI_FORMAT_D24_UNORM_S8_UINT ∨
              DXGIFormat = DXGI_FORMAT_R24_UNORM_X8_TYPELESS ∨
              DXGIFormat = DXGI_FORMAT_X24_TYPELESS_G8_UINT then
        DXGI_FORMAT_R24G8_TYPELESS
      else if DXGIFormat = DXGI_FORMAT_R16_TYPELESS ∨
              DXGIFormat = DXGI_FORMAT_R16_UNORM ∨
              DXGIFormat = DXGI_FORMAT_D16_UNORM then
        DXGI_FORMAT_R16_TYPELESS
      else if DXGIFormat = DXGI_FORMAT_R32G8X24_TYPELESS ∨
              DXGIFormat = DXGI_FORMAT_D32_FLOAT_S8X24_UINT ∨
              DXGIFormat = DXGI_FORMAT_R32_FLOAT_X8X24_TYPELESS ∨
              DXGIFormat = DXGI_FORMAT_X32_TYPELESS_G8X24_UINT then
        DXGI_FORMAT_R32G8X24_TYPELESS
      else
        DXGIFormat
    else DXGIFormat
  let fmt2 :=
    if BindFlags = BIND_DEPTH_STENCIL then
      if fmt1 = DXGI_FORMAT_R32_TYPELESS ∨
         fmt1 = DXGI_FORMAT_R32_FLOAT then
        DXGI_FORMAT_D32_FLOAT
      else if fmt1 = DXGI_FORMAT_R24G8_TYPELESS ∨
              fmt1 = DXGI_FORMAT_R24_UNORM_X8_TYPELESS ∨
              fmt1 = DXGI_FORMAT_X24_TYPELESS_G8_UINT then
        DXGI_FORMAT_D24_UNORM_S8_UINT
      else if fmt1 = DXGI_FORMAT_R16_TYPELESS ∨
              fmt1 = DXGI_FORMAT_R16_UNORM then
        DXGI_FORMAT_D16_UNORM
      else if fmt1 = DXGI_FORMAT_R32G8X24_TYPELESS ∨
              fmt1 = DXGI_FORMAT_R32_FLOAT_X8X24_TYPELESS ∨
              fmt1 = DXGI_FORMAT_X32_TYPELESS_G8X24_UINT then
        DXGI_FORMAT_D32_FLOAT_S8X24_UINT
      else fmt1
    else fmt1
  if BindFlags = BIND_SHADER_RESOURCE ∨ BindFlags = BIND_UNORDERED_ACCESS then
    if fmt2 = DXGI_FORMAT_R32_TYPELESS ∨
       fmt2 = DXGI_FORMAT_D32_FLOAT then
      DXGI_FORMAT_R32_FLOAT
    else if fmt2 = DXGI_FORMAT_R24G8_TYPELESS ∨
            fmt2 = DXGI_FORMAT_D24_UNORM_S8_UINT then
      DXGI_FORMAT_R24_UNORM_X8_TYPELESS
    else if fmt2 = DXGI_FORMAT_R16_TYPELESS ∨
            fmt2 = DXGI_FORMAT_D16_UNORM then
      DXGI_FORMAT_R16_UNORM
    else if fmt2 = DXGI_FORMAT_R32G8X24_TYPELESS ∨
            fmt2 = DXGI_FORMAT_D32_FLOAT_S8X24_UINT then
      DXGI_FORMAT_R32_FLOAT_X8X24_TYPELESS
    else fmt2
  else fmt2

/-- Reports whether the `UNEXPECTED("Unsupported depth-stencil format")`
diagnostic in the first pass of `CorrectDXGIFormat` fires: the format reaches
the combined depth-stencil branch but matches none of its case labels. -/
def CorrectDXGIFormatUnexpected (DXGIFormat BindFlags : Nat) : Bool :=
  if BindFlags &&& BIND_DEPTH_STENCIL ≠ 0 ∧ BindFlags ≠ BIND_DEPTH_STENCIL then
    if DXGIFormat = DXGI_FORMAT_R32_TYPELESS ∨
       DXGIFormat = DXGI_FORMAT_R32_FLOAT ∨
       DXGIFormat = DXGI_FORMAT_D32_FLOAT ∨
       DXGIFormat = DXGI_FORMAT_R24G8_TYPELESS ∨
       DXGIFormat = DXGI_FORMAT_D24_UNORM_S8_UINT ∨
       DXGIFormat = DXGI_FORMAT_R24_UNORM_X8_TYPELESS ∨
       DXGIFormat = DXGI_FORMAT_X24_TYPELESS_G8_UINT ∨
       DXGIFormat = DXGI_FORMAT_R16_TYPELESS ∨
       DXGIFormat = DXGI_FORMAT_R16_UNORM ∨
       DXGIFormat = DXGI_FORMAT_D16_UNORM ∨
       DXGIFormat = DXGI_FORMAT_R32G8X24_TYPELESS ∨
       DXGIFormat = DXGI_FORMAT_D32_FLOAT_S8X24_UINT ∨
       DXGIFormat = DXGI_FORMAT_R32_FLOAT_X8X24_TYPELESS ∨
       DXGIFormat = DXGI_FORMAT_X32_TYPELESS_G8X24_UINT then
      false
    else true
  else false

/-! ### TexFormatToDXGI_Format. -/

/-- Embedding of `TexFormatToDXGI_Format(TEXTURE_FORMAT TexFormat, Uint32
BindFlags)`.  The C range check `TexFormat >= TEX_FORMAT_UNKNOWN` is trivially
true on the unsigned enumeration and is dropped. -/
def TexFormatToDXGI_Format (TexFormat BindFlags : Nat) : Nat :=
  if TexFormat < TEX_FORMAT_NUM_FORMATS then
    let DXGIFormat := FmtToDXGIFmtMap.getD TexFormat DXGI_FORMAT_UNKNOWN
    if BindFlags ≠ 0 then CorrectDXGIFormat DXGIFormat BindFlags else DXGIFormat
  else
    DXGI_FORMAT_UNKNOWN

/-- Reports whether the `VERIFY(TexFormat == TEX_FORMAT_UNKNOWN || TexFormat >
TEX_FORMAT_BC7_UNORM_SRGB || DXGIFormat != DXGI_FORMAT_UNKNOWN)` diagnostic in
`TexFormatToDXGI_Format` fires (the asserted condition is false) for an
in-range input. -/
def TexFormatToDXGI_FormatVerify (TexFormat : Nat) : Bool :=
  if TexFormat < TEX_FORMAT_NUM_FORMATS then
    decide ¬(TexFormat = TEX_FORMAT_UNKNOWN ∨
             TEX_FORMAT_BC7_UNORM_SRGB < TexFormat ∨
             FmtToDXGIFmtMap.getD TexFormat DXGI_FORMAT_UNKNOWN ≠ DXGI_FORMAT_UNKNOWN)
  else false

/-- Reports whether the fatal `UNEXPECTED("Texture format ... is out of allowed
range ...")` contract diagnostic in `TexFormatToDXGI_Format` fires. -/
def TexFormatToDXGI_FormatUnexpected (TexFormat : Nat) : Bool :=
  decide ¬(TexFormat < TEX_FORMAT_NUM_FORMATS)

/-! ### Inverse table and DXGI_FormatToTexFormat. -/

/-- Embedding of the constructor of `DXGIFmtToFmtMapInitializer`: iterate every
engine format from `TEX_FORMAT_UNKNOWN` upward and write
`DXGIFmtToFmtMap[TexFormatToDXGI_Format(fmt)] = fmt`; later writes overwrite
earlier ones on collision. -/
def DXGIFmtToFmtMapInitializer (tbl : List Nat) : List Nat :=
  (List.range TEX_FORMAT_NUM_FORMATS).foldl
    (fun tbl fmt => tbl.set (TexFormatToDXGI_Format fmt 0) fmt) tbl

/-- The inverse table `DXGIFmtToFmtMap`: a static array of
`DXGI_FORMAT_B4G4R4A4_UNORM + 1` slots, zero-initialized (static storage, so
every slot starts at `TEX_FORMAT_UNKNOWN`), then populated by the initializer. -/
def DXGIFmtToFmtMap : List Nat :=
  DXGIFmtToFmtMapInitializer
    (List.replicate (DXGI_FORMAT_B4G4R4A4_UNORM + 1) TEX_FORMAT_UNKNOWN)

/-- Embedding of `DXGI_FormatToTexFormat(DXGI_FORMAT DXGIFormat)`.  The C range
check `DXGIFormat >= DXGI_FORMAT_UNKNOWN` is trivially true on the unsigned
enumeration and is dropped. -/
def DXGI_FormatToTexFormat (DXGIFormat : Nat) : Nat :=
  if DXGIFormat ≤ DXGI_FORMAT_BC7_UNORM_SRGB then
    DXGIFmtToFmtMap.getD DXGIFormat TEX_FORMAT_UNKNOWN
  else
    TEX_FORMAT_UNKNOWN

/-- Reports whether the `VERIFY(DXGIFormat == DXGI_FORMAT_UNKNOWN || Format !=
TEX_FORMAT_UNKNOWN)` diagnostic in `DXGI_FormatToTexFormat` fires for an
in-range input. -/
def DXGI_FormatToTexFormatVerify (DXGIFormat : Nat) : Bool :=
  if DXGIFormat ≤ DXGI_FORMAT_BC7_UNORM_SRGB then
    decide ¬(DXGIFormat = DXGI_FORMAT_UNKNOWN ∨
             DXGIFmtToFmtMap.getD DXGIFormat TEX_FORMAT_UNKNOWN ≠ TEX_FORMAT_UNKNOWN)
  else false

/-- Reports whether the fatal `UNEXPECTED("DXGI texture format ... is out of
allowed range ...")` contract diagnostic in `DXGI_FormatToTexFormat` fires. -/
def DXGI_FormatToTexFormatUnexpected (DXGIFormat : Nat) : Bool :=
  decide ¬(DXGIFormat ≤ DXGI_FORMAT_BC7_UNORM_SRGB)

/-! ### COLOR_SPACE enumeration.

Modelled from the spec: the engine color-space enumeration is declared in a
header that is not among the provided sources; the spec describes it only as
a small independent enumeration.  The conversion code compares the input
against named enumerators, so only distinctness of the values matters; they
are assigned consecutively here with `Unknown` as the zero sentinel.
-/

def COLOR_SPACE_UNKNOWN : Nat := 0

def COLOR_SPACE_SRGB_NONLINEAR : Nat := 1

def COLOR_SPACE_EXTENDED_SRGB_LINEAR : Nat := 2

def COLOR_SPACE_EXTENDED_SRGB_NONLINEAR : Nat := 3

def COLOR_SPACE_DISPLAY_P3_NONLINEAR : Nat := 4

def COLOR_SPACE_DISPLAY_P3_LINEAR : Nat := 5

def COLOR_SPACE_DCI_P3_NONLINEAR : Nat := 6

def COLOR_SPACE_BT709_LINEAR : Nat := 7

def COLOR_SPACE_BT709_NONLINEAR : Nat := 8

def COLOR_SPACE_BT2020_LINEAR : Nat := 9

def COLOR_SPACE_HDR10_ST2084 : Nat := 10

def COLOR_SPACE_HDR10_HLG : Nat := 11

def COLOR_SPACE_DOLBY_VISION : Nat := 12

def COLOR_SPACE_ADOBE_RGB_NONLINEAR : Nat := 13

def COLOR_SPACE_ADOBE_RGB_LINEAR : Nat := 14

def COLOR_SPACE_PASS_THROUGH : Nat := 15

def COLOR_SPACE_SCRGB_LINEAR : Nat := 16

/-! ### DXGI_COLOR_SPACE_TYPE enumeration (standard Windows SDK values). -/

def DXGI_COLOR_SPACE_RGB_FULL_G22_NONE_P709 : Nat := 0

def DXGI_COLOR_SPACE_RGB_FULL_G10_NONE_P709 : Nat := 1

def DXGI_COLOR_SPACE_RGB_STUDIO_G22_NONE_P709 : Nat := 2

def DXGI_COLOR_SPACE_RGB_STUDIO_G22_NONE_P2020 : Nat := 3

def DXGI_COLOR_SPACE_RESERVED : Nat := 4

def DXGI_COLOR_SPACE_YCBCR_FULL_G22_NONE_P709_X601 : Nat := 5

def DXGI_COLOR_SPACE_YCBCR_STUDIO_G22_LEFT_P601 : Nat := 6

def DXGI_COLOR_SPACE_YCBCR_FULL_G22_LEFT_P601 : Nat := 7

def DXGI_COLOR_SPACE_YCBCR_STUDIO_G22_LEFT_P709 : Nat := 8

def DXGI_COLOR_SPACE_YCBCR_FULL_G22_LEFT_P709 : Nat := 9

def DXGI_COLOR_SPACE_YCBCR_STUDIO_G22_LEFT_P2020 : Nat := 10

def DXGI_COLOR_SPACE_YCBCR_FULL_G22_LEFT_P2020 : Nat := 11

def DXGI_COLOR_SPACE_RGB_FULL_G2084_NONE_P2020 : Nat := 12

def DXGI_COLOR_SPACE_YCBCR_STUDIO_G2084_LEFT_P2020 : Nat := 13

def DXGI_COLOR_SPACE_RGB_STUDIO_G2084_NONE_P2020 : Nat := 14

def DXGI_COLOR_SPACE_YCBCR_STUDIO_G22_TOPLEFT_P2020 : Nat := 15

def DXGI_COLOR_SPACE_YCBCR_STUDIO_G2084_TOPLEFT_P2020 : Nat := 16

def DXGI_COLOR_SPACE_RGB_FULL_G22_NONE_P2020 : Nat := 17

def DXGI_COLOR_SPACE_YCBCR_STUDIO_GHLG_TOPLEFT_P2020 : Nat := 18

def DXGI_COLOR_SPACE_YCBCR_FULL_GHLG_TOPLEFT_P2020 : Nat := 19

def DXGI_COLOR_SPACE_RGB_STUDIO_G24_NONE_P709 : Nat := 20

def DXGI_COLOR_SPACE_RGB_STUDIO_G24_NONE_P2020 : Nat := 21

def DXGI_COLOR_SPACE_YCBCR_STUDIO_G24_LEFT_P709 : Nat := 22

def DXGI_COLOR_SPACE_YCBCR_STUDIO_G24_LEFT_P2020 : Nat := 23

def DXGI_COLOR_SPACE_YCBCR_STUDIO_G24_TOPLEFT_P2020 : Nat := 24

def DXGI_COLOR_SPACE_CUSTOM : Nat := 4294967295

/-! ### Color-space heuristic mappers.

The C `switch` statements are embedded as equality chains in case order; the
`default` (together with the cases explicitly falling through to it) is the
final `else`.
-/

/-- Embedding of `ColorSpaceToDXGIColorSpace(COLOR_SPACE ColorSpace)`. -/
def ColorSpaceToDXGIColorSpace (ColorSpace : Nat) : Nat :=
  if ColorSpace = COLOR_SPACE_SRGB_NONLINEAR then
    DXGI_COLOR_SPACE_RGB_FULL_G22_NONE_P709
  else if ColorSpace = COLOR_SPACE_EXTENDED_SRGB_LINEAR then
    DXGI_COLOR_SPACE_RGB_FULL_G10_NONE_P709
  else if ColorSpace = COLOR_SPACE_EXTENDED_SRGB_NONLINEAR then
    DXGI_COLOR_SPACE_RGB_FULL_G22_NONE_P709
  else if ColorSpace = COLOR_SPACE_DISPLAY_P3_NONLINEAR then
    DXGI_COLOR_SPACE_RGB_FULL_G22_NONE_P709
  else if ColorSpace = COLOR_SPACE_DISPLAY_P3_LINEAR then
    DXGI_COLOR_SPACE_RGB_FULL_G10_NONE_P709
  else if ColorSpace = COLOR_SPACE_DCI_P3_NONLINEAR then
    DXGI_COLOR_SPACE_RGB_FULL_G22_NONE_P709
  else if ColorSpace = COLOR_SPACE_BT709_LINEAR then
    DXGI_COLOR_SPACE_RGB_FULL_G10_NONE_P709
  else if ColorSpace = COLOR_SPACE_BT709_NONLINEAR then
    DXGI_COLOR_SPACE_RGB_FULL_G22_NONE_P709
  else if ColorSpace = COLOR_SPACE_BT2020_LINEAR then
    DXGI_COLOR_SPACE_RGB_FULL_G2084_NONE_P2020
  else if ColorSpace = COLOR_SPACE_HDR10_ST2084 then
    DXGI_COLOR_SPACE_RGB_FULL_G2084_NONE_P2020
  else if ColorSpace = COLOR_SPACE_HDR10_HLG then
    DXGI_COLOR_SPACE_RGB_FULL_G22_NONE_P2020
  else if ColorSpace = COLOR_SPACE_DOLBY_VISION then
    DXGI_COLOR_SPACE_RGB_FULL_G2084_NONE_P2020
  else if ColorSpace = COLOR_SPACE_ADOBE_RGB_NONLINEAR then
    DXGI_COLOR_SPACE_RGB_FULL_G22_NONE_P709
  else if ColorSpace = COLOR_SPACE_ADOBE_RGB_LINEAR then
    DXGI_COLOR_SPACE_RGB_FULL_G10_NONE_P709
  else if ColorSpace = COLOR_SPACE_PASS_THROUGH then
    DXGI_COLOR_SPACE_RGB_FULL_G22_NONE_P709
  else if ColorSpace = COLOR_SPACE_SCRGB_LINEAR then
    DXGI_COLOR_SPACE_RGB_FULL_G10_NONE_P709
  else
    DXGI_COLOR_SPACE_RGB_FULL_G22_NONE_P709

/-- Embedding of `DXGIColorSpaceToColorSpace(DXGI_COLOR_SPACE_TYPE
DXGIColorSpace)`. -/
def DXGIColorSpaceToColorSpace (DXGIColorSpace : Nat) : Nat :=
  if DXGIColorSpace = DXGI_COLOR_SPACE_RGB_FULL_G22_NONE_P709 then
    COLOR_SPACE_SRGB_NONLINEAR
  else if DXGIColorSpace = DXGI_COLOR_SPACE_RGB_FULL_G10_NONE_P709 then
    COLOR_SPACE_SCRGB_LINEAR
  else if DXGIColorSpace = DXGI_COLOR_SPACE_RGB_FULL_G2084_NONE_P2020 then
    COLOR_SPACE_HDR10_ST2084
  else if DXGIColorSpace = DXGI_COLOR_SPACE_RGB_FULL_G22_NONE_P2020 then
    COLOR_SPACE_HDR10_HLG
  else if DXGIColorSpace = DXGI_COLOR_SPACE_RGB_STUDIO_G22_NONE_P709 then
    COLOR_SPACE_SRGB_NONLINEAR
  else if DXGIColorSpace = DXGI_COLOR_SPACE_RGB_STUDIO_G22_NONE_P2020 then
    COLOR_SPACE_HDR10_HLG
  else if DXGIColorSpace = DXGI_COLOR_SPACE_RGB_STUDIO_G2084_NONE_P2020 then
    COLOR_SPACE_HDR10_ST2084
  else if DXGIColorSpace = DXGI_COLOR_SPACE_RGB_STUDIO_G24_NONE_P709 then
    COLOR_SPACE_BT709_NONLINEAR
  else if DXGIColorSpace = DXGI_COLOR_SPACE_RGB_STUDIO_G24_NONE_P2020 then
    COLOR_SPACE_HDR10_HLG
  else if DXGIColorSpace = DXGI_COLOR_SPACE_YCBCR_FULL_G22_NONE_P709_X601 ∨
          DXGIColorSpace = DXGI_COLOR_SPACE_YCBCR_STUDIO_G22_LEFT_P601 ∨
          DXGIColorSpace = DXGI_COLOR_SPACE_YCBCR_FULL_G22_LEFT_P601 ∨
          DXGIColorSpace = DXGI_COLOR_SPACE_YCBCR_STUDIO_G22_LEFT_P709 ∨
          DXGIColorSpace = DXGI_COLOR_SPACE_YCBCR_FULL_G22_LEFT_P709 ∨
          DXGIColorSpace = DXGI_COLOR_SPACE_YCBCR_STUDIO_G24_LEFT_P709 then
    COLOR_SPACE_SRGB_NONLINEAR
  else if DXGIColorSpace = DXGI_COLOR_SPACE_YCBCR_STUDIO_G22_LEFT_P2020 ∨
          DXGIColorSpace = DXGI_COLOR_SPACE_YCBCR_FULL_G22_LEFT_P2020 ∨
          DXGIColorSpace = DXGI_COLOR_SPACE_YCBCR_STUDIO_G22_TOPLEFT_P2020 ∨
          DXGIColorSpace = DXGI_COLOR_SPACE_YCBCR_STUDIO_G24_LEFT_P2020 ∨
          DXGIColorSpace = DXGI_COLOR_SPACE_YCBCR_STUDIO_G24_TOPLEFT_P2020 then
    COLOR_SPACE_HDR10_HLG
  else if DXGIColorSpace = DXGI_COLOR_SPACE_YCBCR_STUDIO_G2084_LEFT_P2020 ∨
          DXGIColorSpace = DXGI_COLOR_SPACE_YCBCR_STUDIO_G2084_TOPLEFT_P2020 then
    COLOR_SPACE_HDR10_ST2084
  else if DXGIColorSpace = DXGI_COLOR_SPACE_YCBCR_STUDIO_GHLG_TOPLEFT_P2020 ∨
          DXGIColorSpace = DXGI_COLOR_SPACE_YCBCR_FULL_GHLG_TOPLEFT_P2020 then
    COLOR_SPACE_HDR10_HLG
  else
    COLOR_SPACE_SRGB_NONLINEAR

/-- The union of the case labels of the four depth-format families handled by
the three passes of `CorrectDXGIFormat` (the 32-bit depth, 24+8 depth-stencil,
16-bit depth and 32+32+8 depth-stencil families); every case label of the
second and third passes also belongs to this set. -/
def DepthFamilyFormats : List Nat :=
  [DXGI_FORMAT_R32_TYPELESS, DXGI_FORMAT_R32_FLOAT, DXGI_FORMAT_D32_FLOAT,
   DXGI_FORMAT_R24G8_TYPELESS, DXGI_FORMAT_D24_UNORM_S8_UINT,
   DXGI_FORMAT_R24_UNORM_X8_TYPELESS, DXGI_FORMAT_X24_TYPELESS_G8_UINT,
   DXGI_FORMAT_R16_TYPELESS, DXGI_FORMAT_R16_UNORM, DXGI_FORMAT_D16_UNORM,
   DXGI_FORMAT_R32G8X24_TYPELESS, DXGI_FORMAT_D32_FLOAT_S8X24_UINT,
   DXGI_FORMAT_R32_FLOAT_X8X24_TYPELESS, DXGI_FORMAT_X32_TYPELESS_G8X24_UINT]

/-- The engine color spaces named as non-default cases of the `switch` in
`ColorSpaceToDXGIColorSpace`; every other value (including
`COLOR_SPACE_UNKNOWN`) takes the `default` branch. -/
def NamedColorSpaces : List Nat :=
  [COLOR_SPACE_SRGB_NONLINEAR, COLOR_SPACE_EXTENDED_SRGB_LINEAR,
   COLOR_SPACE_EXTENDED_SRGB_NONLINEAR, COLOR_SPACE_DISPLAY_P3_NONLINEAR,
   COLOR_SPACE_DISPLAY_P3_LINEAR, COLOR_SPACE_DCI_P3_NONLINEAR,
   COLOR_SPACE_BT709_LINEAR, COLOR_SPACE_BT709_NONLINEAR,
   COLOR_SPACE_BT2020_LINEAR, COLOR_SPACE_HDR10_ST2084, COLOR_SPACE_HDR10_HLG,
   COLOR_SPACE_DOLBY_VISION, COLOR_SPACE_ADOBE_RGB_NONLINEAR,
   COLOR_SPACE_ADOBE_RGB_LINEAR, COLOR_SPACE_PASS_THROUGH,
   COLOR_SPACE_SCRGB_LINEAR]

/-- The DXGI color spaces named as non-default cases of the `switch` in
`DXGIColorSpaceToColorSpace`; every other value (including
`DXGI_COLOR_SPACE_RESERVED` and `DXGI_COLOR_SPACE_CUSTOM`) takes the
`default` branch. -/
def NamedDXGIColorSpaces : List Nat :=
  [DXGI_COLOR_SPACE_RGB_FULL_G22_NONE_P709, DXGI_COLOR_SPACE_RGB_FULL_G10_NONE_P709,
   DXGI_COLOR_SPACE_RGB_FULL_G2084_NONE_P2020, DXGI_COLOR_SPACE_RGB_FULL_G22_NONE_P2020,
   DXGI_COLOR_SPACE_RGB_STUDIO_G22_NONE_P709, DXGI_COLOR_SPACE_RGB_STUDIO_G22_NONE_P2020,
   DXGI_COLOR_SPACE_RGB_STUDIO_G2084_NONE_P2020, DXGI_COLOR_SPACE_RGB_STUDIO_G24_NONE_P709,
   DXGI_COLOR_SPACE_RGB_STUDIO_G24_NONE_P2020,
   DXGI_COLOR_SPACE_YCBCR_FULL_G22_NONE_P709_X601,
   DXGI_COLOR_SPACE_YCBCR_STUDIO_G22_LEFT_P601, DXGI_COLOR_SPACE_YCBCR_FULL_G22_LEFT_P601,
   DXGI_COLOR_SPACE_YCBCR_STUDIO_G22_LEFT_P709, DXGI_COLOR_SPACE_YCBCR_FULL_G22_LEFT_P709,
   DXGI_COLOR_SPACE_YCBCR_STUDIO_G24_LEFT_P709,
   DXGI_COLOR_SPACE_YCBCR_STUDIO_G22_LEFT_P2020,
   DXGI_COLOR_SPACE_YCBCR_FULL_G22_LEFT_P2020,
   DXGI_COLOR_SPACE_YCBCR_STUDIO_G22_TOPLEFT_P2020,
   DXGI_COLOR_SPACE_YCBCR_STUDIO_G24_LEFT_P2020,
   DXGI_COLOR_SPACE_YCBCR_STUDIO_G24_TOPLEFT_P2020,
   DXGI_COLOR_SPACE_YCBCR_STUDIO_G2084_LEFT_P2020,
   DXGI_COLOR_SPACE_YCBCR_STUDIO_G2084_TOPLEFT_P2020,
   DXGI_COLOR_SPACE_YCBCR_STUDIO_GHLG_TOPLEFT_P2020,
   DXGI_COLOR_SPACE_YCBCR_FULL_GHLG_TOPLEFT_P2020]

set_option maxRecDepth 10000

/-- C1: every engine texture format `e` below `TEX_FORMAT_NUM_FORMATS` that is
the last enumeration-order contributor to its native slot (no larger in-range
engine format maps to the same DXGI format under no binding flags) round-trips:
`DXGI_FormatToTexFormat (TexFormatToDXGI_Format e 0) = e`. -/
theorem canonical_roundtrip :
    ∀ e, e < TEX_FORMAT_NUM_FORMATS →
      (∀ f, f < TEX_FORMAT_NUM_FORMATS → e < f →
        TexFormatToDXGI_Format f 0 ≠ TexFormatToDXGI_Format e 0) →
      DXGI_FormatToTexFormat (TexFormatToDXGI_Format e 0) = e := by decide

/-- Witness for C1 at `TEX_FORMAT_RGBA8_UNORM`, the sole contributor to its
native slot. -/
theorem canonical_roundtrip_witness :
    DXGI_FormatToTexFormat (TexFormatToDXGI_Format TEX_FORMAT_RGBA8_UNORM 0) =
      TEX_FORMAT_RGBA8_UNORM :=
  canonical_roundtrip TEX_FORMAT_RGBA8_UNORM (by decide) (by decide)

/-- C2: the three narrowing equations of `CorrectDXGIFormat`: the 32-bit
typeless format with exactly depth-stencil binding narrows to the concrete
depth format; the concrete depth format with exactly shader-resource binding
narrows to the shader-readable variant; and `DXGI_FORMAT_R24G8_TYPELESS` with
depth-stencil combined with any other flag is returned unchanged. -/
theorem depth_stencil_narrowing :
    CorrectDXGIFormat DXGI_FORMAT_R32_TYPELESS BIND_DEPTH_STENCIL = DXGI_FORMAT_D32_FLOAT ∧
    CorrectDXGIFormat DXGI_FORMAT_D32_FLOAT BIND_SHADER_RESOURCE = DXGI_FORMAT_R32_FLOAT ∧
    ∀ BindFlags, BindFlags &&& BIND_DEPTH_STENCIL ≠ 0 → BindFlags ≠ BIND_DEPTH_STENCIL →
      CorrectDXGIFormat DXGI_FORMAT_R24G8_TYPELESS BindFlags = DXGI_FORMAT_R24G8_TYPELESS := by
  refine ⟨by decide, by decide, ?_⟩
  intro BindFlags h1 h2
  simp only [BIND_DEPTH_STENCIL] at h1 h2
  have h8 : BindFlags ≠ 8 := by
    rintro rfl; exact h1 (by decide)
  have h128 : BindFlags ≠ 128 := by
    rintro rfl; exact h1 (by decide)
  simp [CorrectDXGIFormat, h1, h2, h8, h128,
    BIND_DEPTH_STENCIL, BIND_SHADER_RESOURCE, BIND_UNORDERED_ACCESS,
    DXGI_FORMAT_R24G8_TYPELESS, DXGI_FORMAT_R32_TYPELESS, DXGI_FORMAT_R32_FLOAT,
    DXGI_FORMAT_D32_FLOAT, DXGI_FORMAT_D24_UNORM_S8_UINT, DXGI_FORMAT_R24_UNORM_X8_TYPELESS,
    DXGI_FORMAT_X24_TYPELESS_G8_UINT, DXGI_FORMAT_R16_TYPELESS, DXGI_FORMAT_R16_UNORM,
    DXGI_FORMAT_D16_UNORM, DXGI_FORMAT_R32G8X24_TYPELESS, DXGI_FORMAT_D32_FLOAT_S8X24_UINT,
    DXGI_FORMAT_R32_FLOAT_X8X24_TYPELESS, DXGI_FORMAT_X32_TYPELESS_G8X24_UINT]

/-- Witness for C2 at the flag combination depth-stencil plus
shader-resource (value 72). -/
theorem depth_stencil_narrowing_witness :
    (72 &&& BIND_DEPTH_STENCIL ≠ 0) ∧ (72 : Nat) ≠ BIND_DEPTH_STENCIL ∧
    CorrectDXGIFormat DXGI_FORMAT_R24G8_TYPELESS 72 = DXGI_FORMAT_R24G8_TYPELESS :=
  ⟨by decide, by decide, depth_stencil_narrowing.2.2 72 (by decide) (by decide)⟩

/-- C3 counterexample: `TEX_FORMAT_ETC2_RGB8_UNORM` (value 100) is an in-range
engine format other than the Unknown sentinel whose forward lookup yields
`DXGI_FORMAT_UNKNOWN`, yet the unexpected-format `VERIFY` diagnostic does not
fire, because the assertion exempts every format above
`TEX_FORMAT_BC7_UNORM_SRGB`. -/
theorem unknown_mapping_counterexample :
    TEX_FORMAT_ETC2_RGB8_UNORM ≠ TEX_FORMAT_UNKNOWN ∧
    TEX_FORMAT_ETC2_RGB8_UNORM < TEX_FORMAT_NUM_FORMATS ∧
    TexFormatToDXGI_Format TEX_FORMAT_ETC2_RGB8_UNORM 0 = DXGI_FORMAT_UNKNOWN ∧
    TexFormatToDXGI_FormatVerify TEX_FORMAT_ETC2_RGB8_UNORM = false := by decide

/-- C3 amended: for in-range engine formats, the forward lookup yields
`DXGI_FORMAT_UNKNOWN` exactly for the Unknown sentinel and for the formats
above `TEX_FORMAT_BC7_UNORM_SRGB`, and the `VERIFY` diagnostic fires exactly
for a non-Unknown format at most `TEX_FORMAT_BC7_UNORM_SRGB` that maps to
Unknown — so with the current table it never fires. -/
theorem unknown_mapping_diagnostic :
    ∀ e, e < TEX_FORMAT_NUM_FORMATS →
      (TexFormatToDXGI_Format e 0 = DXGI_FORMAT_UNKNOWN ↔
        (e = TEX_FORMAT_UNKNOWN ∨ TEX_FORMAT_BC7_UNORM_SRGB < e)) ∧
      (TexFormatToDXGI_FormatVerify e = true ↔
        (e ≠ TEX_FORMAT_UNKNOWN ∧ e ≤ TEX_FORMAT_BC7_UNORM_SRGB ∧
         TexFormatToDXGI_Format e 0 = DXGI_FORMAT_UNKNOWN)) := by decide

/-- Witness for C3 (amended) at `TEX_FORMAT_ETC2_RGBA8_UNORM_SRGB`. -/
theorem unknown_mapping_diagnostic_witness :
    TexFormatToDXGI_Format TEX_FORMAT_ETC2_RGBA8_UNORM_SRGB 0 = DXGI_FORMAT_UNKNOWN :=
  ((unknown_mapping_diagnostic TEX_FORMAT_ETC2_RGBA8_UNORM_SRGB (by decide)).1).mpr (by decide)

/-- C4 counterexample: `DXGI_FormatToTexFormat` applied to the native sentinel
`DXGI_FORMAT_UNKNOWN` does not return the engine sentinel
`TEX_FORMAT_UNKNOWN`. -/
theorem unknown_inverse_counterexample :
    DXGI_FormatToTexFormat DXGI_FORMAT_UNKNOWN ≠ TEX_FORMAT_UNKNOWN := by decide

/-- C4 amended: `DXGI_FormatToTexFormat DXGI_FORMAT_UNKNOWN` returns
`TEX_FORMAT_ETC2_RGBA8_UNORM_SRGB`, the last engine format in enumeration
order (`TEX_FORMAT_NUM_FORMATS - 1`), because it is the last contributor to
the Unknown slot during last-wins inversion; neither the fatal out-of-range
path nor the `VERIFY` diagnostic triggers for that input. -/
theorem unknown_inverse_behavior :
    DXGI_FormatToTexFormat DXGI_FORMAT_UNKNOWN = TEX_FORMAT_ETC2_RGBA8_UNORM_SRGB ∧
    TEX_FORMAT_ETC2_RGBA8_UNORM_SRGB = TEX_FORMAT_NUM_FORMATS - 1 ∧
    TexFormatToDXGI_Format TEX_FORMAT_ETC2_RGBA8_UNORM_SRGB 0 = DXGI_FORMAT_UNKNOWN ∧
    DXGI_FormatToTexFormatUnexpected DXGI_FORMAT_UNKNOWN = false ∧
    DXGI_FormatToTexFormatVerify DXGI_FORMAT_UNKNOWN = false := by decide

/-- C5: totality of the two table lookups — every in-range input returns its
table entry with no fatal diagnostic, and every out-of-range input triggers
the fatal `UNEXPECTED` contract diagnostic and returns the Unknown sentinel of
the result type. -/
theorem conversion_totality :
    (∀ t, t < TEX_FORMAT_NUM_FORMATS →
       TexFormatToDXGI_Format t 0 = FmtToDXGIFmtMap.getD t DXGI_FORMAT_UNKNOWN ∧
       TexFormatToDXGI_FormatUnexpected t = false) ∧
    (∀ t, TEX_FORMAT_NUM_FORMATS ≤ t →
       TexFormatToDXGI_Format t 0 = DXGI_FORMAT_UNKNOWN ∧
       TexFormatToDXGI_FormatUnexpected t = true) ∧
    (∀ f, f ≤ DXGI_FORMAT_BC7_UNORM_SRGB →
       DXGI_FormatToTexFormat f = DXGIFmtToFmtMap.getD f TEX_FORMAT_UNKNOWN ∧
       DXGI_FormatToTexFormatUnexpected f = false) ∧
    (∀ f, DXGI_FORMAT_BC7_UNORM_SRGB < f →
       DXGI_FormatToTexFormat f = TEX_FORMAT_UNKNOWN ∧
       DXGI_FormatToTexFormatUnexpected f = true) := by
  refine ⟨by decide, ?_, by decide, ?_⟩
  · intro t ht
    simp only [TEX_FORMAT_NUM_FORMATS] at ht
    refine ⟨?_, ?_⟩
    · simp only [TexFormatToDXGI_Format, TEX_FORMAT_NUM_FORMATS]
      rw [if_neg (by omega)]
    · simp only [TexFormatToDXGI_FormatUnexpected, TEX_FORMAT_NUM_FORMATS,
        decide_eq_true_eq]
      omega
  · intro f hf
    simp only [DXGI_FORMAT_BC7_UNORM_SRGB] at hf
    refine ⟨?_, ?_⟩
    · simp only [DXGI_FormatToTexFormat, DXGI_FORMAT_BC7_UNORM_SRGB]
      rw [if_neg (by omega)]
    · simp only [DXGI_FormatToTexFormatUnexpected, DXGI_FORMAT_BC7_UNORM_SRGB,
        decide_eq_true_eq]
      omega

/-- Witness for C5 at the out-of-range engine format 500. -/
theorem conversion_totality_witness :
    TexFormatToDXGI_Format 500 0 = DXGI_FORMAT_UNKNOWN ∧
    TexFormatToDXGI_FormatUnexpected 500 = true :=
  conversion_totality.2.1 500 (by decide)

/-- C6: every native format outside the four depth families passes through
`CorrectDXGIFormat` unchanged under every binding-flag combination, and the
unexpected-format diagnostic fires for such a format exactly when the flags
combine depth-stencil with another flag (the combined depth-stencil branch). -/
theorem out_of_family_passthrough :
    ∀ f, f ∉ DepthFamilyFormats → ∀ BindFlags,
      CorrectDXGIFormat f BindFlags = f ∧
      (CorrectDXGIFormatUnexpected f BindFlags = true ↔
        (BindFlags &&& BIND_DEPTH_STENCIL ≠ 0 ∧ BindFlags ≠ BIND_DEPTH_STENCIL)) := by
  intro f hf BindFlags
  simp only [DepthFamilyFormats, List.mem_cons, List.not_mem_nil, or_false, not_or,
    DXGI_FORMAT_R32_TYPELESS, DXGI_FORMAT_R32_FLOAT, DXGI_FORMAT_D32_FLOAT,
    DXGI_FORMAT_R24G8_TYPELESS, DXGI_FORMAT_D24_UNORM_S8_UINT,
    DXGI_FORMAT_R24_UNORM_X8_TYPELESS, DXGI_FORMAT_X24_TYPELESS_G8_UINT,
    DXGI_FORMAT_R16_TYPELESS, DXGI_FORMAT_R16_UNORM, DXGI_FORMAT_D16_UNORM,
    DXGI_FORMAT_R32G8X24_TYPELESS, DXGI_FORMAT_D32_FLOAT_S8X24_UINT,
    DXGI_FORMAT_R32_FLOAT_X8X24_TYPELESS, DXGI_FORMAT_X32_TYPELESS_G8X24_UINT] at hf
  refine ⟨?_, ?_⟩
  · simp [CorrectDXGIFormat, hf,
      BIND_DEPTH_STENCIL, BIND_SHADER_RESOURCE, BIND_UNORDERED_ACCESS,
      DXGI_FORMAT_R32_TYPELESS, DXGI_FORMAT_R32_FLOAT, DXGI_FORMAT_D32_FLOAT,
      DXGI_FORMAT_R24G8_TYPELESS, DXGI_FORMAT_D24_UNORM_S8_UINT,
      DXGI_FORMAT_R24_UNORM_X8_TYPELESS, DXGI_FORMAT_X24_TYPELESS_G8_UINT,
      DXGI_FORMAT_R16_TYPELESS, DXGI_FORMAT_R16_UNORM, DXGI_FORMAT_D16_UNORM,
      DXGI_FORMAT_R32G8X24_TYPELESS, DXGI_FORMAT_D32_FLOAT_S8X24_UINT,
      DXGI_FORMAT_R32_FLOAT_X8X24_TYPELESS, DXGI_FORMAT_X32_TYPELESS_G8X24_UINT]
  · by_cases hc : BindFlags &&& 64 ≠ 0 ∧ BindFlags ≠ 64
    · simp [CorrectDXGIFormatUnexpected, hf, hc, BIND_DEPTH_STENCIL,
        DXGI_FORMAT_R32_TYPELESS, DXGI_FORMAT_R32_FLOAT, DXGI_FORMAT_D32_FLOAT,
        DXGI_FORMAT_R24G8_TYPELESS, DXGI_FORMAT_D24_UNORM_S8_UINT,
        DXGI_FORMAT_R24_UNORM_X8_TYPELESS, DXGI_FORMAT_X24_TYPELESS_G8_UINT,
        DXGI_FORMAT_R16_TYPELESS, DXGI_FORMAT_R16_UNORM, DXGI_FORMAT_D16_UNORM,
        DXGI_FORMAT_R32G8X24_TYPELESS, DXGI_FORMAT_D32_FLOAT_S8X24_UINT,
        DXGI_FORMAT_R32_FLOAT_X8X24_TYPELESS, DXGI_FORMAT_X32_TYPELESS_G8X24_UINT]
    · simp [CorrectDXGIFormatUnexpected, hc, BIND_DEPTH_STENCIL]

/-- Witness for C6 at `DXGI_FORMAT_R8G8B8A8_UNORM` with depth-stencil plus
shader-resource binding flags (value 72). -/
theorem out_of_family_passthrough_witness :
    CorrectDXGIFormat DXGI_FORMAT_R8G8B8A8_UNORM 72 = DXGI_FORMAT_R8G8B8A8_UNORM :=
  (out_of_family_passthrough DXGI_FORMAT_R8G8B8A8_UNORM (by decide) 72).1

/-- C8: both color-space mappers are total deterministic functions — every
value outside the named enumerators (including the Unknown, Reserved and
Custom sentinels) maps to the documented standard-gamma/standard-gamut
neutral default in each direction. -/
theorem colorspace_totality :
    (∀ c, c ∉ NamedColorSpaces →
       ColorSpaceToDXGIColorSpace c = DXGI_COLOR_SPACE_RGB_FULL_G22_NONE_P709) ∧
    (∀ d, d ∉ NamedDXGIColorSpaces →
       DXGIColorSpaceToColorSpace d = COLOR_SPACE_SRGB_NONLINEAR) ∧
    ColorSpaceToDXGIColorSpace COLOR_SPACE_UNKNOWN = DXGI_COLOR_SPACE_RGB_FULL_G22_NONE_P709 ∧
    DXGIColorSpaceToColorSpace DXGI_COLOR_SPACE_RESERVED = COLOR_SPACE_SRGB_NONLINEAR ∧
    DXGIColorSpaceToColorSpace DXGI_COLOR_SPACE_CUSTOM = COLOR_SPACE_SRGB_NONLINEAR := by
  refine ⟨?_, ?_, by decide, by decide, by decide⟩
  · intro c hc
    simp only [NamedColorSpaces, List.mem_cons, List.not_mem_nil, or_false, not_or,
      COLOR_SPACE_SRGB_NONLINEAR, COLOR_SPACE_EXTENDED_SRGB_LINEAR,
      COLOR_SPACE_EXTENDED_SRGB_NONLINEAR, COLOR_SPACE_DISPLAY_P3_NONLINEAR,
      COLOR_SPACE_DISPLAY_P3_LINEAR, COLOR_SPACE_DCI_P3_NONLINEAR,
      COLOR_SPACE_BT709_LINEAR, COLOR_SPACE_BT709_NONLINEAR,
      COLOR_SPACE_BT2020_LINEAR, COLOR_SPACE_HDR10_ST2084, COLOR_SPACE_HDR10_HLG,
      COLOR_SPACE_DOLBY_VISION, COLOR_SPACE_ADOBE_RGB_NONLINEAR,
      COLOR_SPACE_ADOBE_RGB_LINEAR, COLOR_SPACE_PASS_THROUGH,
      COLOR_SPACE_SCRGB_LINEAR] at hc
    simp [ColorSpaceToDXGIColorSpace, hc,
      COLOR_SPACE_SRGB_NONLINEAR, COLOR_SPACE_EXTENDED_SRGB_LINEAR,
      COLOR_SPACE_EXTENDED_SRGB_NONLINEAR, COLOR_SPACE_DISPLAY_P3_NONLINEAR,
      COLOR_SPACE_DISPLAY_P3_LINEAR, COLOR_SPACE_DCI_P3_NONLINEAR,
      COLOR_SPACE_BT709_LINEAR, COLOR_SPACE_BT709_NONLINEAR,
      COLOR_SPACE_BT2020_LINEAR, COLOR_SPACE_HDR10_ST2084, COLOR_SPACE_HDR10_HLG,
      COLOR_SPACE_DOLBY_VISION, COLOR_SPACE_ADOBE_RGB_NONLINEAR,
      COLOR_SPACE_ADOBE_RGB_LINEAR, COLOR_SPACE_PASS_THROUGH,
      COLOR_SPACE_SCRGB_LINEAR]
  · intro d hd
    simp only [NamedDXGIColorSpaces, List.mem_cons, List.not_mem_nil, or_false, not_or,
      DXGI_COLOR_SPACE_RGB_FULL_G22_NONE_P709, DXGI_COLOR_SPACE_RGB_FULL_G10_NONE_P709,
      DXGI_COLOR_SPACE_RGB_FULL_G2084_NONE_P2020, DXGI_COLOR_SPACE_RGB_FULL_G22_NONE_P2020,
      DXGI_COLOR_SPACE_RGB_STUDIO_G22_NONE_P709, DXGI_COLOR_SPACE_RGB_STUDIO_G22_NONE_P2020,
      DXGI_COLOR_SPACE_RGB_STUDIO_G2084_NONE_P2020, DXGI_COLOR_SPACE_RGB_STUDIO_G24_NONE_P709,
      DXGI_COLOR_SPACE_RGB_STUDIO_G24_NONE_P2020,
      DXGI_COLOR_SPACE_YCBCR_FULL_G22_NONE_P709_X601,
      DXGI_COLOR_SPACE_YCBCR_STUDIO_G22_LEFT_P601, DXGI_COLOR_SPACE_YCBCR_FULL_G22_LEFT_P601,
      DXGI_COLOR_SPACE_YCBCR_STUDIO_G22_LEFT_P709, DXGI_COLOR_SPACE_YCBCR_FULL_G22_LEFT_P709,
      DXGI_COLOR_SPACE_YCBCR_STUDIO_G24_LEFT_P709,
      DXGI_COLOR_SPACE_YCBCR_STUDIO_G22_LEFT_P2020,
      DXGI_COLOR_SPACE_YCBCR_FULL_G22_LEFT_P2020,
      DXGI_COLOR_SPACE_YCBCR_STUDIO_G22_TOPLEFT_P2020,
      DXGI_COLOR_SPACE_YCBCR_STUDIO_G24_LEFT_P2020,
      DXGI_COLOR_SPACE_YCBCR_STUDIO_G24_TOPLEFT_P2020,
      DXGI_COLOR_SPACE_YCBCR_STUDIO_G2084_LEFT_P2020,
      DXGI_COLOR_SPACE_YCBCR_STUDIO_G2084_TOPLEFT_P2020,
      DXGI_COLOR_SPACE_YCBCR_STUDIO_GHLG_TOPLEFT_P2020,
      DXGI_COLOR_SPACE_YCBCR_FULL_GHLG_TOPLEFT_P2020] at hd
    simp [DXGIColorSpaceToColorSpace, hd,
      DXGI_COLOR_SPACE_RGB_FULL_G22_NONE_P709, DXGI_COLOR_SPACE_RGB_FULL_G10_NONE_P709,
      DXGI_COLOR_SPACE_RGB_FULL_G2084_NONE_P2020, DXGI_COLOR_SPACE_RGB_FULL_G22_NONE_P2020,
      DXGI_COLOR_SPACE_RGB_STUDIO_G22_NONE_P709, DXGI_COLOR_SPACE_RGB_STUDIO_G22_NONE_P2020,
      DXGI_COLOR_SPACE_RGB_STUDIO_G2084_NONE_P2020, DXGI_COLOR_SPACE_RGB_STUDIO_G24_NONE_P709,
      DXGI_COLOR_SPACE_RGB_STUDIO_G24_NONE_P2020,
      DXGI_COLOR_SPACE_YCBCR_FULL_G22_NONE_P709_X601,
      DXGI_COLOR_SPACE_YCBCR_STUDIO_G22_LEFT_P601, DXGI_COLOR_SPACE_YCBCR_FULL_G22_LEFT_P601,
      DXGI_COLOR_SPACE_YCBCR_STUDIO_G22_LEFT_P709, DXGI_COLOR_SPACE_YCBCR_FULL_G22_LEFT_P709,
      DXGI_COLOR_SPACE_YCBCR_STUDIO_G24_LEFT_P709,
      DXGI_COLOR_SPACE_YCBCR_STUDIO_G22_LEFT_P2020,
      DXGI_COLOR_SPACE_YCBCR_FULL_G22_LEFT_P2020,
      DXGI_COLOR_SPACE_YCBCR_STUDIO_G22_TOPLEFT_P2020,
      DXGI_COLOR_SPACE_YCBCR_STUDIO_G24_LEFT_P2020,
      DXGI_COLOR_SPACE_YCBCR_STUDIO_G24_TOPLEFT_P2020,
      DXGI_COLOR_SPACE_YCBCR_STUDIO_G2084_LEFT_P2020,
      DXGI_COLOR_SPACE_YCBCR_STUDIO_G2084_TOPLEFT_P2020,
      DXGI_COLOR_SPACE_YCBCR_STUDIO_GHLG_TOPLEFT_P2020,
      DXGI_COLOR_SPACE_YCBCR_FULL_GHLG_TOPLEFT_P2020]

/-- Witness for C8 at the unhandled engine color-space value 999. -/
theorem colorspace_totality_witness :
    ColorSpaceToDXGIColorSpace 999 = DXGI_COLOR_SPACE_RGB_FULL_G22_NONE_P709 :=
  colorspace_totality.1 999 (by decide)

/-- C9: the HDR10 perceptual-quantizer pair round-trips exactly:
`COLOR_SPACE_HDR10_ST2084` maps to `DXGI_COLOR_SPACE_RGB_FULL_G2084_NONE_P2020`
and back. -/
theorem hdr10_roundtrip :
    ColorSpaceToDXGIColorSpace COLOR_SPACE_HDR10_ST2084 =
      DXGI_COLOR_SPACE_RGB_FULL_G2084_NONE_P2020 ∧
    DXGIColorSpaceToColorSpace DXGI_COLOR_SPACE_RGB_FULL_G2084_NONE_P2020 =
      COLOR_SPACE_HDR10_ST2084 := by decide

/-- C10: with an empty binding-flag set, `CorrectDXGIFormat` is the identity on
every DXGI format, and `TexFormatToDXGI_Format` with no binding flags returns
exactly the raw forward-table entry for every in-range engine format. -/
theorem zero_bindflags_identity :
    (∀ f, CorrectDXGIFormat f 0 = f) ∧
    (∀ e, e < TEX_FORMAT_NUM_FORMATS →
       TexFormatToDXGI_Format e 0 = FmtToDXGIFmtMap.getD e DXGI_FORMAT_UNKNOWN) := by
  refine ⟨?_, by decide⟩
  intro f
  simp [CorrectDXGIFormat, BIND_DEPTH_STENCIL, BIND_SHADER_RESOURCE, BIND_UNORDERED_ACCESS]

/-- Witness for C10 at `TEX_FORMAT_RGBA16_FLOAT`. -/
theorem zero_bindflags_identity_witness :
    TexFormatToDXGI_Format TEX_FORMAT_RGBA16_FLOAT 0 =
      FmtToDXGIFmtMap.getD TEX_FORMAT_RGBA16_FLOAT DXGI_FORMAT_UNKNOWN :=
  zero_bindflags_identity.2 TEX_FORMAT_RGBA16_FLOAT (by decide)

end Diligent
